import Mathlib

/-!
Shallow embedding of the structured-notes tracker's barrier/status/coupon
engine (src/barrier_checker.py, src/status_calculator.py,
src/coupon_calculator.py, src/ben_logic.py) and proofs about it.

Modelling conventions, used uniformly below:
* A calendar date is a day number (`Nat`); `datetime.date` supports exactly
  the operations the engine uses on dates (ordering, equality, difference in
  days), all of which are faithfully represented on day numbers.
* Python floats on prices/amounts are modelled as exact rationals (`ℚ`).
* A nullable numeric field is `Option ℚ`; Python truthiness of such a field
  (`if u['x']`) is `truthyQ`: `None` and `0.0` are falsy.
* A stored date field can be missing (`None`), a parseable value, or an
  unparseable string; `DateField` abstracts the three cases and `parse_date`
  models `status_calculator.parse_date` / `datetime.strptime` in a
  `try/except`: it succeeds exactly on the parseable case.
* Returned message strings are abstracted by the inductive `Msg`, one
  constructor per distinct return site of the Python functions (the
  interpolated prices in the f-strings carry no logic).
* A Python exception is an `Except.error`; only code paths that can actually
  raise are placed in `Except`.
-/

namespace StructuredNotes

/-- A calendar date as a day number (see module conventions). -/
abbrev DateV := Nat

/-- A persisted date field: `None`, a parseable date value, or an
unparseable string (`status_calculator.parse_date` lines 73-93 distinguishes
exactly these outcomes). -/
inductive DateField
  | missing
  | valid (d : DateV)
  | invalid
deriving DecidableEq

/-- `status_calculator.parse_date` (src/status_calculator.py lines 73-93),
and likewise the `datetime.strptime(...)` calls wrapped in `try/except` in
src/barrier_checker.py: returns the date when the stored value is a
date/parseable string, `None` otherwise. -/
def parse_date : DateField → Option DateV
  | .missing => none
  | .valid d => some d
  | .invalid => none

/-- Python truthiness of a nullable float field: `None` and `0.0` are falsy. -/
def truthyQ : Option ℚ → Bool
  | none => false
  | some x => x != 0

/-- One row of `note_underlyings` as consumed by the barrier checker. -/
structure Underlying where
  underlying_ticker : String
  spot_price : Option ℚ
  strike_price : Option ℚ
  ko_price : Option ℚ
  ki_price : Option ℚ
  last_close_price : Option ℚ
deriving DecidableEq

/-- One row of `structured_notes` as consumed by the engines.
`type_of_structured_product` is optional because the code reads it with
`note.get('type_of_structured_product', 'FCN')`. Event flags are the
`ko_event_occurred` / `ki_event_occurred` columns (0/1 in the DB). -/
structure Note where
  id : Nat
  isin : String
  type_of_structured_product : Option String
  current_status : String
  ki_type : Option String
  observation_start_date : DateField
  final_valuation_date : DateField
  ko_event_occurred : Bool
  ki_event_occurred : Bool
  ko_event_date : Option DateV
  ki_event_date : Option DateV
deriving DecidableEq

/-! ## Coupon calculator (src/coupon_calculator.py)

`parse_coupon_payment_dates` splits the stored string, drops unparseable
entries and sorts; both coupon functions call it on their string argument.
We model its output list of parsed dates as the input (`dates`) and keep the
final `sorted(...)` explicitly, so the functions below take the multiset of
parsed dates in arbitrary order, exactly what the string determines. -/

/-- The `sorted(dates)` step of `parse_coupon_payment_dates`
(src/coupon_calculator.py line 39). -/
def sortDates (l : List DateV) : List DateV := l.insertionSort (· ≤ ·)

/-- `calculate_expected_coupon` (src/coupon_calculator.py lines 42-95):
annualized model, `notional × rate × (span + one padding period) / 365.25`. -/
def calculate_expected_coupon (notional_amount coupon_per_annum : ℚ)
    (dates : List DateV) : ℚ :=
  if notional_amount = 0 ∨ coupon_per_annum = 0 then 0
  else
    let payment_dates := sortDates dates
    let num_payments := payment_dates.length
    if num_payments = 0 then 0
    else if 2 ≤ num_payments then
      let first_payment := payment_dates.headD 0
      let last_payment := payment_dates.getLastD 0
      let days_between : ℚ := ((last_payment - first_payment : ℕ) : ℚ)
      let years := days_between / (1461 / 4)
      let payment_freq_days :=
        if 1 < num_payments then days_between / ((num_payments : ℚ) - 1) else 30
      let years := years + payment_freq_days / (1461 / 4)
      notional_amount * coupon_per_annum * years
    else
      notional_amount * coupon_per_annum

/-- `calculate_accumulated_coupon` (src/coupon_calculator.py lines 98-135):
splits `notional × rate` evenly over all scheduled dates and multiplies by
the number of dates ≤ `as_of_date`. Returns (amount, paidCount, totalCount). -/
def calculate_accumulated_coupon (notional_amount coupon_per_annum : ℚ)
    (dates : List DateV) (as_of_date : DateV) : ℚ × Nat × Nat :=
  if notional_amount = 0 ∨ coupon_per_annum = 0 then (0, 0, 0)
  else
    let payment_dates := sortDates dates
    let total_payments := payment_dates.length
    if total_payments = 0 then (0, 0, 0)
    else
      let payments_made := payment_dates.countP (fun pd => pd ≤ as_of_date)
      let per_payment_amount := (notional_amount * coupon_per_annum) / (total_payments : ℚ)
      (per_payment_amount * (payments_made : ℚ), payments_made, total_payments)

/-! ## Status calculator (src/status_calculator.py) -/

/-- `calculate_note_status` (src/status_calculator.py lines 24-70). -/
def calculate_note_status (note : Note) (today : DateV) : String :=
  match parse_date note.observation_start_date, parse_date note.final_valuation_date with
  | some obs_start, some final_val =>
    if today < obs_start then "Not Observed Yet"
    else if final_val < today then "Ended"
    else if note.ko_event_occurred then "Knocked Out"
    else if note.ki_event_occurred then "Knocked In"
    else "Alive"
  | _, _ => "Unknown"

/-! ## Barrier checker (src/barrier_checker.py)

Every message string returned by the Python functions is represented by one
constructor of `Msg` (the f-string interpolations of tickers/prices carry no
logic; where a ticker is interpolated it is kept as a constructor argument). -/

/-- Return messages of the barrier/conversion checks, one constructor per
distinct return site in src/barrier_checker.py. `noWorst` stands for both
"Could not determine worst performing share/underlying" phrasings. -/
inductive Msg
  | notInObservation
  | noKoBarriers
  | notAllPrices
  | fcnKoAll
  | koNotTriggered
  | noCompleteData
  | phoenixKo (ticker : String)
  | phoenixKoNot (ticker : String)
  | noWorst
  | ekiOnlyFinal
  | noKiBarriers
  | kiTriggered (ticker : String)
  | kiNotTriggered
  | phoenixKiOnlyFinal
  | phoenixKi (ticker : String)
  | phoenixKiNot (ticker : String)
  | noKiPriceData
  | benKi (ticker : String)
  | benNoKi
  | notKnockedIn
  | convOnlyFinal
  | invalidFinalDate
  | converted (ticker : String)
  | cashSettlement (ticker : String)
deriving DecidableEq

/-- `note['current_status'] not in ['Alive', 'Not Observed Yet']` gate,
negated: true when the note is in the observation period. -/
def inObservationStatus (s : String) : Bool :=
  s == "Alive" || s == "Not Observed Yet"

/-- `note.get('type_of_structured_product', 'FCN')`. -/
def productType (note : Note) : String :=
  note.type_of_structured_product.getD "FCN"

/-- `u['last_close_price'] / u['strike_price']` as used after a filter that
guarantees both fields are present and the divisor nonzero. -/
def perfStrike (u : Underlying) : ℚ :=
  u.last_close_price.getD 0 / u.strike_price.getD 0

/-- `u['last_close_price'] / u['spot_price']` as used after a filter that
guarantees both fields are present and the divisor nonzero. -/
def perfSpot (u : Underlying) : ℚ :=
  u.last_close_price.getD 0 / u.spot_price.getD 0

/-- One iteration of the Python worst-performing-share loop
(`if performance < worst_performance: update`, first minimum wins). -/
def worstStep (ref : Underlying → ℚ) (acc : Option (ℚ × Underlying))
    (u : Underlying) : Option (ℚ × Underlying) :=
  match acc with
  | none => some (ref u, u)
  | some (wp, w) => if ref u < wp then some (ref u, u) else some (wp, w)

/-- The worst-performing-share selection loop (starts from
`worst_performance = inf; worst_underlying = None`). -/
def worstBy (ref : Underlying → ℚ) (l : List Underlying) : Option Underlying :=
  (l.foldl (worstStep ref) none).map Prod.snd

/-- `check_ko_barrier_fcn` (src/barrier_checker.py lines 11-50). -/
def check_ko_barrier_fcn (note : Note) (underlyings : List Underlying)
    (_today : DateV) : Bool × Msg :=
  if ¬ inObservationStatus note.current_status then (false, .notInObservation)
  else
    let underlyings_with_ko := underlyings.filter fun u =>
      truthyQ u.ko_price && decide (0 < u.ko_price.getD 0)
    if underlyings_with_ko = [] then (false, .noKoBarriers)
    else
      let underlyings_with_prices := underlyings_with_ko.filter fun u =>
        truthyQ u.last_close_price
      if underlyings_with_prices.length < underlyings_with_ko.length then
        (false, .notAllPrices)
      else
        let all_above_ko := underlyings_with_prices.all fun u =>
          u.ko_price.getD 0 ≤ u.last_close_price.getD 0
        if all_above_ko then (true, .fcnKoAll) else (false, .koNotTriggered)

/-- `check_ko_barrier_phoenix` (src/barrier_checker.py lines 53-89): note the
worst-performing selection divides by `strike_price` (line 77). -/
def check_ko_barrier_phoenix (note : Note) (underlyings : List Underlying)
    (_today : DateV) : Bool × Msg :=
  if ¬ inObservationStatus note.current_status then (false, .notInObservation)
  else
    let underlyings_with_prices := underlyings.filter fun u =>
      truthyQ u.last_close_price && truthyQ u.strike_price && truthyQ u.ko_price
    if underlyings_with_prices = [] then (false, .noCompleteData)
    else
      match worstBy perfStrike underlyings_with_prices with
      | none => (false, .noWorst)
      | some w =>
        if w.ko_price.getD 0 ≤ w.last_close_price.getD 0 then
          (true, .phoenixKo w.underlying_ticker)
        else
          (false, .phoenixKoNot w.underlying_ticker)

/-- `check_ko_barrier` (src/barrier_checker.py lines 92-105): product routing;
every non-Phoenix product (BEN included) uses the FCN logic. -/
def check_ko_barrier (note : Note) (underlyings : List Underlying)
    (today : DateV) : Bool × Msg :=
  if productType note = "Phoenix" then
    check_ko_barrier_phoenix note underlyings today
  else
    check_ko_barrier_fcn note underlyings today

/-- The `today != final_val` test of the EKI/final-date gates: true when the
stored final-valuation date parses and differs from `today`; a parse failure
makes the gate a no-op (`except: pass` in the source). -/
def notFinalDate (f : DateField) (today : DateV) : Bool :=
  match parse_date f with
  | some final_val => today != final_val
  | none => false

/-- `check_ki_barrier_fcn` (src/barrier_checker.py lines 108-148). A parse
failure of `final_valuation_date` in the EKI gate falls through to the daily
check (bare `except: pass`). -/
def check_ki_barrier_fcn (note : Note) (underlyings : List Underlying)
    (today : DateV) : Bool × Option String × Msg :=
  if ¬ inObservationStatus note.current_status then (false, none, .notInObservation)
  else if note.ki_type = some "EKI" ∧ notFinalDate note.final_valuation_date today then
    (false, none, .ekiOnlyFinal)
  else
    let underlyings_with_ki := underlyings.filter fun u =>
      truthyQ u.ki_price && decide (0 < u.ki_price.getD 0)
    if underlyings_with_ki = [] then (false, none, .noKiBarriers)
    else
      let underlyings_with_prices := underlyings_with_ki.filter fun u =>
        truthyQ u.last_close_price
      if underlyings_with_prices.length < underlyings_with_ki.length then
        (false, none, .notAllPrices)
      else
        match underlyings_with_prices.find? (fun u =>
            u.last_close_price.getD 0 ≤ u.ki_price.getD 0) with
        | some u => (true, some u.underlying_ticker, .kiTriggered u.underlying_ticker)
        | none => (false, none, .kiNotTriggered)

/-- `check_ki_barrier_phoenix` (src/barrier_checker.py lines 151-196): always
EKI-gated on the final valuation date; a parse failure of that date falls
through to checking anyway (bare `except: pass`). -/
def check_ki_barrier_phoenix (note : Note) (underlyings : List Underlying)
    (today : DateV) : Bool × Option String × Msg :=
  if ¬ inObservationStatus note.current_status then (false, none, .notInObservation)
  else if notFinalDate note.final_valuation_date today then
    (false, none, .phoenixKiOnlyFinal)
  else
    let underlyings_with_prices := underlyings.filter fun u =>
      truthyQ u.last_close_price && truthyQ u.strike_price && truthyQ u.ki_price
    if underlyings_with_prices = [] then (false, none, .noCompleteData)
    else
      match worstBy perfStrike underlyings_with_prices with
      | none => (false, none, .noWorst)
      | some w =>
        if w.last_close_price.getD 0 ≤ w.ki_price.getD 0 then
          (true, some w.underlying_ticker, .phoenixKi w.underlying_ticker)
        else
          (false, none, .phoenixKiNot w.underlying_ticker)

/-- `check_ki_barrier_ben` (src/barrier_checker.py lines 199-224): daily
monitoring (`today` unused, no EKI gate), any one underlying strictly below
its KI price. -/
def check_ki_barrier_ben (note : Note) (underlyings : List Underlying)
    (_today : DateV) : Bool × Option String × Msg :=
  if ¬ inObservationStatus note.current_status then (false, none, .notInObservation)
  else
    let underlyings_with_prices := underlyings.filter fun u =>
      truthyQ u.last_close_price && truthyQ u.ki_price
    if underlyings_with_prices = [] then (false, none, .noKiPriceData)
    else
      match underlyings_with_prices.find? (fun u =>
          u.last_close_price.getD 0 < u.ki_price.getD 0) with
      | some u => (true, some u.underlying_ticker, .benKi u.underlying_ticker)
      | none => (false, none, .benNoKi)

/-- `check_ki_barrier` (src/barrier_checker.py lines 227-242): product routing. -/
def check_ki_barrier (note : Note) (underlyings : List Underlying)
    (today : DateV) : Bool × Option String × Msg :=
  if productType note = "Phoenix" then
    check_ki_barrier_phoenix note underlyings today
  else if productType note = "BEN" then
    check_ki_barrier_ben note underlyings today
  else
    check_ki_barrier_fcn note underlyings today

/-- `check_conversion_fcn` (src/barrier_checker.py lines 245-294). Returned
in `Except` for uniformity with the Phoenix variant; this variant never
errors. Worst-performing selection divides by `strike_price` (line 282),
which the filter guarantees present and nonzero. -/
def check_conversion_fcn (note : Note) (underlyings : List Underlying)
    (today : DateV) : Except String (Bool × Msg) :=
  if note.current_status ≠ "Knocked In" then .ok (false, .notKnockedIn)
  else
    match parse_date note.final_valuation_date with
    | none => .ok (false, .invalidFinalDate)
    | some final_val =>
      if today ≠ final_val then .ok (false, .convOnlyFinal)
      else
        let underlyings_with_prices := underlyings.filter fun u =>
          truthyQ u.last_close_price && truthyQ u.strike_price
        if underlyings_with_prices = [] then .ok (false, .noCompleteData)
        else
          match worstBy perfStrike underlyings_with_prices with
          | none => .ok (false, .noWorst)
          | some w =>
            if w.last_close_price.getD 0 < w.strike_price.getD 0 then
              .ok (true, .converted w.underlying_ticker)
            else
              .ok (false, .cashSettlement w.underlying_ticker)

/-- `u['last_close_price'] / u['spot_price']` at line 333 of
src/barrier_checker.py, where `spot_price` is NOT covered by the preceding
filter: raises `TypeError` on a missing spot and `ZeroDivisionError` on a
zero spot, modelled as `Except.error`. -/
def perfSpotE (u : Underlying) : Except String ℚ :=
  match u.spot_price with
  | none => .error "TypeError"
  | some s =>
    if s = 0 then .error "ZeroDivisionError"
    else .ok (u.last_close_price.getD 0 / s)

/-- The worst-performing loop of `check_conversion_phoenix`
(src/barrier_checker.py lines 329-336), whose per-element division can raise. -/
def worstBySpotE (l : List Underlying) : Except String (Option Underlying) := do
  let acc ← l.foldlM
    (fun (acc : Option (ℚ × Underlying)) u => do
      let performance ← perfSpotE u
      match acc with
      | none => pure (some (performance, u))
      | some (wp, w) =>
        if performance < wp then pure (some (performance, u))
        else pure (some (wp, w)))
    (none : Option (ℚ × Underlying))
  pure (acc.map Prod.snd)

/-- `check_conversion_phoenix` (src/barrier_checker.py lines 297-345): the
filter (line 324) requires only `last_close_price` and `strike_price`, yet
the loop divides by `spot_price` (line 333) — so a filtered underlying with
a missing or zero spot price raises. -/
def check_conversion_phoenix (note : Note) (underlyings : List Underlying)
    (today : DateV) : Except String (Bool × Msg) :=
  if note.current_status ≠ "Knocked In" then .ok (false, .notKnockedIn)
  else
    match parse_date note.final_valuation_date with
    | none => .ok (false, .invalidFinalDate)
    | some final_val =>
      if today ≠ final_val then .ok (false, .convOnlyFinal)
      else
        let underlyings_with_prices := underlyings.filter fun u =>
          truthyQ u.last_close_price && truthyQ u.strike_price
        if underlyings_with_prices = [] then .ok (false, .noCompleteData)
        else
          match worstBySpotE underlyings_with_prices with
          | .error e => .error e
          | .ok none => .ok (false, .noWorst)
          | .ok (some w) =>
            if w.last_close_price.getD 0 < w.strike_price.getD 0 then
              .ok (true, .converted w.underlying_ticker)
            else
              .ok (false, .cashSettlement w.underlying_ticker)

/-- `check_conversion_ben` (src/barrier_checker.py lines 348-397): the filter
(line 376) requires `last_close_price`, `strike_price` and `spot_price`, so
its division by `spot_price` is safe; never errors. -/
def check_conversion_ben (note : Note) (underlyings : List Underlying)
    (today : DateV) : Except String (Bool × Msg) :=
  if note.current_status ≠ "Knocked In" then .ok (false, .notKnockedIn)
  else
    match parse_date note.final_valuation_date with
    | none => .ok (false, .invalidFinalDate)
    | some final_val =>
      if today ≠ final_val then .ok (false, .convOnlyFinal)
      else
        let underlyings_with_prices := underlyings.filter fun u =>
          truthyQ u.last_close_price && truthyQ u.strike_price && truthyQ u.spot_price
        if underlyings_with_prices = [] then .ok (false, .noCompleteData)
        else
          match worstBy perfSpot underlyings_with_prices with
          | none => .ok (false, .noWorst)
          | some w =>
            if w.last_close_price.getD 0 < w.strike_price.getD 0 then
              .ok (true, .converted w.underlying_ticker)
            else
              .ok (false, .cashSettlement w.underlying_ticker)

/-- `check_conversion` (src/barrier_checker.py lines 400-414): product routing. -/
def check_conversion (note : Note) (underlyings : List Underlying)
    (today : DateV) : Except String (Bool × Msg) :=
  if productType note = "Phoenix" then
    check_conversion_phoenix note underlyings today
  else if productType note = "BEN" then
    check_conversion_ben note underlyings today
  else
    check_conversion_fcn note underlyings today

/-! ## Orchestrator (src/barrier_checker.py `check_all_barriers`, lines 417-524)

The per-note body of the loop is `processNote`; the database writes are
modelled as the returned updated note (the SQL UPDATEs set exactly the
fields changed below, with `CURRENT_DATE = today`), and the success path of
the write is taken (a persistence failure is outside the barrier logic).
`evaluated` records, in order, which checks the body actually invoked. -/

/-- Which barrier checks a refresh pass invoked for one note. -/
inductive CheckKind
  | conversion
  | knockOut
  | knockIn
deriving DecidableEq

/-- Outcome of one note's processing in a refresh pass: the note as left in
the database, the contributions to the three counters, and the trace of
checks invoked. -/
structure StepResult where
  note : Note
  koInc : Nat
  kiInc : Nat
  convInc : Nat
  evaluated : List CheckKind
deriving DecidableEq

/-- The per-note body of `check_all_barriers` (src/barrier_checker.py lines
436-523): conversion first (`continue` on success), then the status skip
(line 476), then KO (`continue` on trigger), then KI. -/
def processNote (note : Note) (underlyings : List Underlying)
    (today : DateV) : Except String StepResult :=
  match check_conversion note underlyings today with
  | .error e => .error e
  | .ok conv =>
    if conv.1 then
      .ok ⟨{ note with current_status := "Converted" }, 0, 0, 1, [.conversion]⟩
    else if ¬ inObservationStatus note.current_status then
      .ok ⟨note, 0, 0, 0, [.conversion]⟩
    else
      if (check_ko_barrier note underlyings today).1 then
        .ok ⟨{ note with current_status := "Knocked Out",
                         ko_event_occurred := true,
                         ko_event_date := some today },
             1, 0, 0, [.conversion, .knockOut]⟩
      else
        if (check_ki_barrier note underlyings today).1 then
          .ok ⟨{ note with current_status := "Knocked In",
                           ki_event_occurred := true,
                           ki_event_date := some today },
               0, 1, 0, [.conversion, .knockOut, .knockIn]⟩
        else
          .ok ⟨note, 0, 0, 0, [.conversion, .knockOut, .knockIn]⟩

/-- `check_all_barriers` (src/barrier_checker.py lines 417-524) over the
list of notes with their underlyings: returns
(koCount, kiCount, convertedCount, updated notes). -/
def check_all_barriers (notes : List (Note × List Underlying)) (today : DateV) :
    Except String (Nat × Nat × Nat × List (Note × List Underlying)) :=
  notes.foldlM
    (fun (acc : Nat × Nat × Nat × List (Note × List Underlying)) p => do
      let r ← processNote p.1 p.2 today
      pure (acc.1 + r.koInc, acc.2.1 + r.kiInc, acc.2.2.1 + r.convInc,
            acc.2.2.2 ++ [(r.note, p.2)]))
    (0, 0, 0, [])

/-! ## Specification-side definition (for refinement comparison)

The spec (§4.3, §9, glossary) defines the Worst Performing Share for KO/KI
selection by the lowest `lastClose/spotPrice` ratio. The code's KO/KI
selection divides by `strike_price` instead; the definition below follows
the spec's words and is used only to compare the two. -/

/-- Worst Performing Share selection as worded by the spec for KO/KI checks:
lowest `lastClose / spotPrice` ratio (same first-minimum loop shape as the
code, with the spec's reference level). -/
def specWorstBySpot (l : List Underlying) : Option Underlying :=
  worstBy perfSpot l

/-! ## Helper lemmas -/

/-- Invariant of the worst-performing fold: the result is consistent
(`fst = ref snd` unless it is the untouched accumulator), is ≤ every scanned
ratio, and never exceeds the starting accumulator. -/
theorem foldl_worstStep_spec (ref : Underlying → ℚ) :
    ∀ (l : List Underlying) (acc : Option (ℚ × Underlying)) (q : ℚ × Underlying),
      l.foldl (worstStep ref) acc = some q →
      ((q.2 ∈ l ∧ q.1 = ref q.2) ∨ acc = some q) ∧
      (∀ u ∈ l, q.1 ≤ ref u) ∧
      (∀ p, acc = some p → q.1 ≤ p.1) := by
  intro l
  induction l with
  | nil =>
    intro acc q h
    have h' : acc = some q := h
    refine ⟨Or.inr h', ?_, ?_⟩
    · intro u hu
      cases hu
    · intro p hp
      rw [h'] at hp
      cases hp
      exact le_refl _
  | cons u l ih =>
    intro acc q h
    simp only [List.foldl_cons] at h
    obtain ⟨h1, h2, h3⟩ := ih (worstStep ref acc u) q h
    have hstep : ∀ p, worstStep ref acc u = some p → p.1 ≤ ref u := by
      intro p hp
      cases acc with
      | none =>
        simp only [worstStep] at hp
        cases hp
        exact le_refl _
      | some a =>
        obtain ⟨wp, w⟩ := a
        simp only [worstStep] at hp
        by_cases hlt : ref u < wp
        · rw [if_pos hlt] at hp
          cases hp
          exact le_refl _
        · rw [if_neg hlt] at hp
          cases hp
          exact le_of_not_lt hlt
    have hq_le_u : q.1 ≤ ref u := by
      cases hacc : worstStep ref acc u with
      | none =>
        exfalso
        cases acc with
        | none => simp [worstStep] at hacc
        | some a =>
          obtain ⟨wp, w⟩ := a
          simp only [worstStep] at hacc
          by_cases hlt : ref u < wp
          · rw [if_pos hlt] at hacc; cases hacc
          · rw [if_neg hlt] at hacc; cases hacc
      | some p =>
        exact le_trans (h3 p hacc) (hstep p hacc)
    refine ⟨?_, ?_, ?_⟩
    · rcases h1 with hmem | hacc
      · exact Or.inl ⟨List.mem_cons_of_mem u hmem.1, hmem.2⟩
      · cases acc with
        | none =>
          simp only [worstStep] at hacc
          cases hacc
          exact Or.inl ⟨List.mem_cons_self u l, rfl⟩
        | some a =>
          obtain ⟨wp, w⟩ := a
          simp only [worstStep] at hacc
          by_cases hlt : ref u < wp
          · rw [if_pos hlt] at hacc
            cases hacc
            exact Or.inl ⟨List.mem_cons_self u l, rfl⟩
          · rw [if_neg hlt] at hacc
            exact Or.inr hacc
    · intro v hv
      rcases List.mem_cons.mp hv with rfl | hv
      · exact hq_le_u
      · exact h2 v hv
    · intro p hp
      subst hp
      cases hq : worstStep ref (some p) u with
      | none =>
        obtain ⟨wp, w⟩ := p
        simp only [worstStep] at hq
        by_cases hlt : ref u < wp
        · rw [if_pos hlt] at hq; cases hq
        · rw [if_neg hlt] at hq; cases hq
      | some p' =>
        refine le_trans (h3 p' hq) ?_
        obtain ⟨wp, w⟩ := p
        simp only [worstStep] at hq
        by_cases hlt : ref u < wp
        · rw [if_pos hlt] at hq
          cases hq
          exact le_of_lt hlt
        · rw [if_neg hlt] at hq
          cases hq
          exact le_refl _

/-- The worst-performing loop returns an element of the list achieving the
minimal reference ratio. -/
theorem worstBy_spec (ref : Underlying → ℚ) (l : List Underlying)
    (w : Underlying) (h : worstBy ref l = some w) :
    w ∈ l ∧ ∀ u ∈ l, ref w ≤ ref u := by
  unfold worstBy at h
  cases hf : l.foldl (worstStep ref) none with
  | none => rw [hf] at h; cases h
  | some q =>
    rw [hf] at h
    have hw : q.2 = w := by simpa using h
    subst hw
    obtain ⟨h1, h2, _⟩ := foldl_worstStep_spec ref l none q hf
    rcases h1 with ⟨hmem, heq⟩ | hacc
    · exact ⟨hmem, fun u hu => heq ▸ h2 u hu⟩
    · cases hacc

/-- Every product's conversion check opens with the `Knocked In` status gate
(src/barrier_checker.py lines 259, 311, 362). -/
theorem check_conversion_of_not_knocked_in (note : Note) (us : List Underlying)
    (today : DateV) (h : note.current_status ≠ "Knocked In") :
    check_conversion note us today = .ok (false, .notKnockedIn) := by
  unfold check_conversion
  split
  · unfold check_conversion_phoenix
    rw [if_pos h]
  · split
    · unfold check_conversion_ben
      rw [if_pos h]
    · unfold check_conversion_fcn
      rw [if_pos h]

/-! ## Concrete instances used by counterexamples and witnesses -/

/-- A BEN note in its observation period. -/
def benNoteC1 : Note :=
  ⟨1, "XS-BEN-1", some "BEN", "Alive", none, .valid 0, .valid 100, false, false, none, none⟩

/-- An underlying with a KO barrier at 100 and a last close 1% above it. -/
def underC1 : Underlying := ⟨"AAA", some 100, some 88, some 100, some 78, some 101⟩

/-- A BEN note with no underlyings carrying KO barriers. -/
def benNoteW1 : Note :=
  ⟨11, "XS-BEN-W", some "BEN", "Alive", none, .valid 0, .valid 100, false, false, none, none⟩

/-- A note recorded `Converted`, with KI flag set, final valuation date 10. -/
def convNoteC2 : Note :=
  ⟨2, "XS-C2", some "FCN", "Converted", none, .valid 0, .valid 10, false, true, none, some 5⟩

/-- An alive note with observation window [5, 10]. -/
def noteW2 : Note :=
  ⟨20, "XS-W2", some "FCN", "Alive", none, .valid 5, .valid 10, false, false, none, none⟩

/-- A note whose observation-start date is missing. -/
def noteW10 : Note :=
  ⟨10, "XS-W10", some "FCN", "Alive", none, .missing, .valid 10, false, false, none, none⟩

/-! ## Claim theorems -/

/-- C1, counterexample: the knock-out check is NOT a no-op for BEN — for a
BEN note in status `Alive` whose underlying has a KO barrier of 100 and a
last close of 101, `check_ko_barrier` triggers (it routes BEN to the FCN
logic, src/barrier_checker.py lines 99-105). -/
theorem ben_ko_check_triggers :
    benNoteC1.type_of_structured_product = some "BEN" ∧
    (check_ko_barrier benNoteC1 [underC1] 0).1 = true := by
  refine ⟨rfl, ?_⟩
  unfold check_ko_barrier
  rw [if_neg (by decide : ¬ productType benNoteC1 = "Phoenix")]
  unfold check_ko_barrier_fcn
  rw [if_neg (by decide : ¬ ¬ inObservationStatus benNoteC1.current_status = true)]
  norm_num [benNoteC1, underC1, truthyQ, List.filter_cons, List.filter_nil,
    List.all_cons, List.all_nil]

/-- C1, amended: for every BEN note the knock-out check routes to the FCN
all-underlyings logic instead of being a no-op; it never triggers only when
no underlying has a positive KO barrier defined. -/
theorem ben_ko_routes_to_fcn (note : Note) (us : List Underlying) (today : DateV)
    (hben : note.type_of_structured_product = some "BEN") :
    check_ko_barrier note us today = check_ko_barrier_fcn note us today ∧
    ((∀ u ∈ us, ¬ (truthyQ u.ko_price = true ∧ 0 < u.ko_price.getD 0)) →
      (check_ko_barrier note us today).1 = false) := by
  have hroute : check_ko_barrier note us today = check_ko_barrier_fcn note us today := by
    unfold check_ko_barrier
    rw [if_neg]
    simp [productType, hben]
  refine ⟨hroute, fun hno => ?_⟩
  have hfilter : us.filter
      (fun u => truthyQ u.ko_price && decide (0 < u.ko_price.getD 0)) = [] := by
    rw [List.filter_eq_nil_iff]
    intro u hu
    have h := hno u hu
    simp only [Bool.and_eq_true, decide_eq_true_eq]
    tauto
  rw [hroute]
  unfold check_ko_barrier_fcn
  split
  · rfl
  · rw [if_pos hfilter]

/-- C1, amended, witness at a BEN note with no KO barriers. -/
theorem ben_ko_routes_to_fcn_witness :
    (check_ko_barrier benNoteW1 [] 0).1 = false :=
  (ben_ko_routes_to_fcn benNoteW1 [] 0 rfl).2 (fun u hu => absurd hu (by simp))

/-- C2, counterexample: a note already recorded `Converted` that is past its
final valuation date derives status `Ended` — the `Ended` branch of
`calculate_note_status` overrides a recorded `Converted` state (the function
never reads `current_status`). -/
theorem status_ended_overrides_converted :
    convNoteC2.current_status = "Converted" ∧
    calculate_note_status convNoteC2 20 = "Ended" ∧
    calculate_note_status convNoteC2 20 ≠ "Converted" := by
  refine ⟨rfl, ?_, ?_⟩ <;> decide

/-- C2, amended: for every note whose two window dates parse, the derived
status follows the strict three-step rule — NotObserved before the window,
`Ended` after it (overriding everything, a recorded `Converted` state
included), else KO flag, then KI flag, then Alive; the result never depends
on the recorded `current_status`. -/
theorem status_three_step_rule (note : Note) (today obs_start final_val : DateV)
    (hobs : parse_date note.observation_start_date = some obs_start)
    (hfin : parse_date note.final_valuation_date = some final_val) :
    calculate_note_status note today =
      (if today < obs_start then "Not Observed Yet"
       else if final_val < today then "Ended"
       else if note.ko_event_occurred then "Knocked Out"
       else if note.ki_event_occurred then "Knocked In"
       else "Alive") ∧
    (∀ s, calculate_note_status { note with current_status := s } today =
       calculate_note_status note today) := by
  constructor
  · unfold calculate_note_status
    rw [hobs, hfin]
  · intro s
    unfold calculate_note_status
    rfl

/-- C2, amended, witness: a note past its window derives `Ended`. -/
theorem status_three_step_rule_witness :
    calculate_note_status noteW2 20 = "Ended" :=
  (status_three_step_rule noteW2 20 5 10 rfl rfl).1.trans (by decide)

/-- C10: a note whose observation-start or final-valuation date is missing
or unparseable derives the status string `Unknown`, which is outside the
five documented lifecycle states (src/status_calculator.py lines 46-50). -/
theorem status_unknown_on_unparseable_dates (note : Note) (today : DateV)
    (h : parse_date note.observation_start_date = none ∨
         parse_date note.final_valuation_date = none) :
    calculate_note_status note today = "Unknown" ∧
    "Unknown" ∉
      (["Not Observed Yet", "Alive", "Knocked Out", "Knocked In", "Ended"] : List String) := by
  constructor
  · unfold calculate_note_status
    rcases h with h | h
    · rw [h]
    · cases hobs : parse_date note.observation_start_date with
      | none => rfl
      | some o => rw [h]
  · decide

/-- C10, witness at a note with a missing observation-start date. -/
theorem status_unknown_witness :
    calculate_note_status noteW10 7 = "Unknown" :=
  (status_unknown_on_unparseable_dates noteW10 7 (Or.inl rfl)).1

/-- C3, counterexample: four monthly payment dates (day numbers 0, 30, 60,
90), two of them ≤ the as-of date 45. `paidCount = 2` and `totalCount = 4`
hold, but the accumulated amount is half of `notional × rate` (60000), not
half of `calculate_expected_coupon` for the same inputs (the latter is
annualized over the padded schedule span of 120 days, ≈ 19712). -/
theorem accumulated_not_half_expected :
    (calculate_accumulated_coupon 1000000 (3/25) [0, 30, 60, 90] 45).2.1 = 2 ∧
    (calculate_accumulated_coupon 1000000 (3/25) [0, 30, 60, 90] 45).2.2 = 4 ∧
    (calculate_accumulated_coupon 1000000 (3/25) [0, 30, 60, 90] 45).1 ≠
      calculate_expected_coupon 1000000 (3/25) [0, 30, 60, 90] / 2 := by
  norm_num [calculate_accumulated_coupon, calculate_expected_coupon, sortDates,
    List.insertionSort, List.orderedInsert, List.countP, List.countP.go]

/-- C3, amended: `calculate_accumulated_coupon` divides the flat one-year
total `notional × annualRate` (not the annualized expected-coupon total)
evenly across all scheduled dates and sums the shares whose date is ≤ the
as-of date; with 4 scheduled dates of which exactly 2 are ≤ the as-of date
it returns paidCount 2, totalCount 4 and amount `notional × annualRate / 2`. -/
theorem accumulated_coupon_even_split (notional coupon : ℚ) (dates : List DateV)
    (asOf : DateV) (hn : notional ≠ 0) (hc : coupon ≠ 0) (hne : dates ≠ []) :
    (calculate_accumulated_coupon notional coupon dates asOf).2.1 =
      dates.countP (fun pd => pd ≤ asOf) ∧
    (calculate_accumulated_coupon notional coupon dates asOf).2.2 = dates.length ∧
    (calculate_accumulated_coupon notional coupon dates asOf).1 =
      notional * coupon / (dates.length : ℚ) *
        (dates.countP (fun pd => pd ≤ asOf) : ℚ) ∧
    (dates.length = 4 → dates.countP (fun pd => pd ≤ asOf) = 2 →
      (calculate_accumulated_coupon notional coupon dates asOf).1 =
        notional * coupon / 2) := by
  have hlen : (sortDates dates).length = dates.length :=
    (List.perm_insertionSort _ dates).length_eq
  have hcount : (sortDates dates).countP (fun pd => decide (pd ≤ asOf)) =
      dates.countP (fun pd => decide (pd ≤ asOf)) :=
    (List.perm_insertionSort _ dates).countP_eq _
  have hguard : ¬ (notional = 0 ∨ coupon = 0) := by tauto
  have hlen0 : ¬ (sortDates dates).length = 0 := by
    rw [hlen]
    intro h
    exact hne (List.length_eq_zero.mp h)
  have heq : calculate_accumulated_coupon notional coupon dates asOf =
      (notional * coupon / ((sortDates dates).length : ℚ) *
        ((sortDates dates).countP (fun pd => decide (pd ≤ asOf)) : ℚ),
       (sortDates dates).countP (fun pd => decide (pd ≤ asOf)),
       (sortDates dates).length) := by
    simp only [calculate_accumulated_coupon]
    rw [if_neg hguard, if_neg hlen0]
  rw [heq, hcount, hlen]
  refine ⟨rfl, rfl, rfl, ?_⟩
  intro h4 h2
  rw [h4, h2]
  norm_num
  ring

/-- C3, amended, witness: 4 dates, 2 paid. -/
theorem accumulated_coupon_even_split_witness :
    (calculate_accumulated_coupon 500000 (3/25) [100, 200, 300, 400] 250).1 =
      500000 * (3/25 : ℚ) / 2 :=
  (accumulated_coupon_even_split 500000 (3/25) [100, 200, 300, 400] 250
    (by norm_num) (by norm_num) (by simp)).2.2.2 (by decide) (by decide)

/-- A BEN note in its observation period, for the knock-in claims. -/
def benNoteC4 : Note :=
  ⟨4, "XS-BEN-4", some "BEN", "Alive", none, .valid 0, .valid 100, false, false, none, none⟩

/-- Spot-based worst performer (ratio 0.5), NOT below its KI barrier
(50 ≥ 40). -/
def underC4wps : Underlying := ⟨"WPS", some 100, some 88, none, some 40, some 50⟩

/-- Better performer (ratio 0.9) that IS below its KI barrier (90 < 95). -/
def underC4oth : Underlying := ⟨"OTH", some 100, some 88, none, some 95, some 90⟩

/-- C4, counterexample: the BEN knock-in check does not monitor the Worst
Performing Share — it triggers here although the spot-ratio WPS is not
below its KI price (the trigger comes from the other, better-performing
underlying). -/
theorem ben_ki_not_wps_based :
    (check_ki_barrier benNoteC4 [underC4wps, underC4oth] 0).1 = true ∧
    specWorstBySpot [underC4wps, underC4oth] = some underC4wps ∧
    ¬ (underC4wps.last_close_price.getD 0 < underC4wps.ki_price.getD 0) := by
  refine ⟨?_, ?_, ?_⟩
  · unfold check_ki_barrier
    rw [if_neg (by decide : ¬ productType benNoteC4 = "Phoenix"),
      if_pos (by decide : productType benNoteC4 = "BEN")]
    unfold check_ki_barrier_ben
    rw [if_neg (by decide : ¬ ¬ inObservationStatus benNoteC4.current_status = true)]
    norm_num [benNoteC4, underC4wps, underC4oth, truthyQ,
      List.filter_cons, List.filter_nil, List.find?]
    simp
  · norm_num [specWorstBySpot, worstBy, worstStep, perfSpot, underC4wps, underC4oth]
  · norm_num [underC4wps]

/-- C4, amended: for every BEN note in status Alive or NotObserved, the
knock-in check monitors daily (its result does not depend on the date at
all, so it is never gated to the final-valuation date) and triggers exactly
when ANY underlying carrying both a last close and a KI price has lastClose
strictly below kiPrice (strict `<`, not `≤`) — not specifically the Worst
Performing Share. -/
theorem ben_ki_daily_any_underlying (note : Note) (us : List Underlying)
    (today : DateV) (hben : note.type_of_structured_product = some "BEN")
    (hst : note.current_status = "Alive" ∨ note.current_status = "Not Observed Yet") :
    ((check_ki_barrier note us today).1 = true ↔
      ∃ u ∈ us, truthyQ u.last_close_price = true ∧ truthyQ u.ki_price = true ∧
        u.last_close_price.getD 0 < u.ki_price.getD 0) ∧
    (∀ t, check_ki_barrier note us t = check_ki_barrier note us today) := by
  have hnp : ¬ productType note = "Phoenix" := by simp [productType, hben]
  have hb : productType note = "BEN" := by simp [productType, hben]
  have hroute : ∀ t, check_ki_barrier note us t = check_ki_barrier_ben note us t := by
    intro t
    unfold check_ki_barrier
    rw [if_neg hnp, if_pos hb]
  have hgate : ¬ ¬ inObservationStatus note.current_status = true := by
    rcases hst with h | h <;> simp [inObservationStatus, h]
  have hchar : (check_ki_barrier_ben note us today).1 = true ↔
      ∃ u ∈ us.filter (fun u => truthyQ u.last_close_price && truthyQ u.ki_price),
        u.last_close_price.getD 0 < u.ki_price.getD 0 := by
    unfold check_ki_barrier_ben
    rw [if_neg hgate]
    by_cases hemp : us.filter (fun u => truthyQ u.last_close_price && truthyQ u.ki_price) = []
    · rw [if_pos hemp, hemp]
      simp
    · rw [if_neg hemp]
      cases hfind : (us.filter fun u => truthyQ u.last_close_price && truthyQ u.ki_price).find?
          (fun u => decide (u.last_close_price.getD 0 < u.ki_price.getD 0)) with
      | some u =>
        exact iff_of_true rfl
          ⟨u, List.mem_of_find?_eq_some hfind, by simpa using List.find?_some hfind⟩
      | none =>
        refine iff_of_false (by simp) ?_
        rintro ⟨u, hu, hlt⟩
        have h := List.find?_eq_none.mp hfind u hu
        simp at h
        exact absurd hlt (not_lt.mpr h)
  constructor
  · rw [hroute today, hchar]
    constructor
    · rintro ⟨u, hu, hlt⟩
      rw [List.mem_filter, Bool.and_eq_true] at hu
      exact ⟨u, hu.1, hu.2.1, hu.2.2, hlt⟩
    · rintro ⟨u, hu, h1, h2, hlt⟩
      exact ⟨u, List.mem_filter.mpr ⟨hu, by rw [Bool.and_eq_true]; exact ⟨h1, h2⟩⟩, hlt⟩
  · intro t
    rw [hroute t, hroute today]
    rfl

/-- C4, amended, witness: a BEN note triggers KI on an underlying strictly
below its barrier. -/
theorem ben_ki_daily_any_underlying_witness :
    (check_ki_barrier benNoteC4 [underC4oth] 0).1 = true :=
  (ben_ki_daily_any_underlying benNoteC4 [underC4oth] 0 rfl (Or.inl rfl)).1.mpr
    ⟨underC4oth, by simp, by norm_num [truthyQ, underC4oth],
      by norm_num [truthyQ, underC4oth], by norm_num [underC4oth]⟩

/-- A Phoenix note in its observation period. -/
def phxNoteC5 : Note :=
  ⟨5, "XS-PHX-5", some "Phoenix", "Alive", none, .valid 0, .valid 100, false, false, none, none⟩

/-- Strike-ratio worst (100/200 = 0.5) but spot-ratio best (100/100 = 1);
below its KO barrier (100 < 120). -/
def underC5a : Underlying := ⟨"A", some 100, some 200, some 120, some 70, some 100⟩

/-- Spot-ratio worst (80/200 = 0.4) but strike-ratio better (80/100 = 0.8);
at or above its KO barrier (80 ≥ 70). -/
def underC5b : Underlying := ⟨"B", some 200, some 100, some 70, some 60, some 80⟩

/-- An underlying whose strike-worst selection triggers KO (95 ≥ 90). -/
def underC5w : Underlying := ⟨"W", some 100, some 100, some 90, none, some 95⟩

/-- C5, counterexample: the Phoenix knock-out check does not select the WPS
by the `lastClose/spotPrice` ratio — here the spot-ratio WPS is at or above
its KO barrier (so the claim predicts a trigger), yet the check does not
trigger, because it selects by `lastClose/strikePrice` instead. -/
theorem phoenix_ko_not_spot_based :
    (check_ko_barrier phxNoteC5 [underC5a, underC5b] 0).1 = false ∧
    specWorstBySpot [underC5a, underC5b] = some underC5b ∧
    underC5b.ko_price.getD 0 ≤ underC5b.last_close_price.getD 0 := by
  refine ⟨?_, ?_, ?_⟩
  · unfold check_ko_barrier
    rw [if_pos (by decide : productType phxNoteC5 = "Phoenix")]
    unfold check_ko_barrier_phoenix
    rw [if_neg (by decide : ¬ ¬ inObservationStatus phxNoteC5.current_status = true)]
    norm_num [phxNoteC5, underC5a, underC5b, truthyQ, List.filter_cons,
      List.filter_nil, worstBy, worstStep, perfStrike]
    simp
  · norm_num [specWorstBySpot, worstBy, worstStep, perfSpot, underC5a, underC5b]
  · norm_num [underC5b]

/-- C5, amended: for every Phoenix note in status Alive or NotObserved, the
knock-out check selects the Worst Performing Share as the underlying with
the lowest `lastClose/strikePrice` ratio (strike, not spot, as the
reference) among the underlyings with complete data, and triggers exactly
when that underlying's lastClose ≥ its koPrice; the selected underlying is
a genuine ratio minimizer. -/
theorem phoenix_ko_wps_by_strike (note : Note) (us : List Underlying)
    (today : DateV) (hphx : note.type_of_structured_product = some "Phoenix")
    (hst : note.current_status = "Alive" ∨ note.current_status = "Not Observed Yet") :
    ((check_ko_barrier note us today).1 = true ↔
      ∃ w, worstBy perfStrike (us.filter fun u =>
          truthyQ u.last_close_price && truthyQ u.strike_price && truthyQ u.ko_price) =
            some w ∧
        w.ko_price.getD 0 ≤ w.last_close_price.getD 0) ∧
    (∀ w, worstBy perfStrike (us.filter fun u =>
        truthyQ u.last_close_price && truthyQ u.strike_price && truthyQ u.ko_price) =
          some w →
      w ∈ us ∧ ∀ u ∈ us,
        (truthyQ u.last_close_price && truthyQ u.strike_price && truthyQ u.ko_price) = true →
          perfStrike w ≤ perfStrike u) := by
  have hroute : check_ko_barrier note us today = check_ko_barrier_phoenix note us today := by
    unfold check_ko_barrier
    rw [if_pos (by simp [productType, hphx])]
  have hgate : ¬ ¬ inObservationStatus note.current_status = true := by
    rcases hst with h | h <;> simp [inObservationStatus, h]
  constructor
  · rw [hroute]
    unfold check_ko_barrier_phoenix
    rw [if_neg hgate]
    by_cases hemp : us.filter (fun u =>
        truthyQ u.last_close_price && truthyQ u.strike_price && truthyQ u.ko_price) = []
    · rw [if_pos hemp, hemp]
      refine iff_of_false (by simp) ?_
      rintro ⟨w, hw, _⟩
      cases hw
    · rw [if_neg hemp]
      cases hworst : worstBy perfStrike (us.filter fun u =>
          truthyQ u.last_close_price && truthyQ u.strike_price && truthyQ u.ko_price) with
      | none =>
        refine iff_of_false (by simp) ?_
        rintro ⟨w, hw, _⟩
        cases hw
      | some w =>
        by_cases hko : w.ko_price.getD 0 ≤ w.last_close_price.getD 0
        · exact iff_of_true (by simp [hko]) ⟨w, rfl, hko⟩
        · refine iff_of_false (by simp [hko]) ?_
          rintro ⟨w', hw', hko'⟩
          cases hw'
          exact hko hko'
  · intro w hw
    obtain ⟨hmem, hmin⟩ := worstBy_spec _ _ _ hw
    rw [List.mem_filter] at hmem
    exact ⟨hmem.1, fun u hu hcond => hmin u (List.mem_filter.mpr ⟨hu, hcond⟩)⟩

/-- C5, amended, witness: a single complete underlying at its KO barrier
triggers. -/
theorem phoenix_ko_wps_by_strike_witness :
    (check_ko_barrier phxNoteC5 [underC5w] 0).1 = true :=
  (phoenix_ko_wps_by_strike phxNoteC5 [underC5w] 0 rfl (Or.inl rfl)).1.mpr
    ⟨underC5w,
      by norm_num [worstBy, worstStep, perfStrike, truthyQ, underC5w,
        List.filter_cons, List.filter_nil],
      by norm_num [underC5w]⟩

/-- A Phoenix note that is Knocked In, at its final valuation date 100. -/
def phxNoteC6 : Note :=
  ⟨6, "XS-PHX-6", some "Phoenix", "Knocked In", none, .valid 0, .valid 100, false, true,
    none, some 50⟩

/-- An underlying passing the Phoenix conversion filter (last close and
strike present) but with a missing spot price. -/
def underC6 : Underlying := ⟨"X", none, some 90, none, none, some 100⟩

/-- C6: the conversion check CAN raise — `check_conversion_phoenix` divides
by `spot_price` (src/barrier_checker.py line 333) although its filter (line
324) does not require it, so a Knocked-In Phoenix note evaluated on its
final valuation date with an underlying lacking a spot price raises a
`TypeError` instead of returning a neutral non-trigger. -/
theorem phoenix_conversion_raises :
    check_conversion phxNoteC6 [underC6] 100 = .error "TypeError" := by
  unfold check_conversion
  rw [if_pos (by decide : productType phxNoteC6 = "Phoenix")]
  unfold check_conversion_phoenix
  rw [if_neg (by decide : ¬ phxNoteC6.current_status ≠ "Knocked In")]
  norm_num [phxNoteC6, underC6, truthyQ, parse_date, List.filter_cons, List.filter_nil,
    worstBySpotE, perfSpotE, List.foldlM]

/-- C7: the conversion check returns "not applicable" — `should_convert =
false` with one of the three gate messages, never a price-based verdict —
whenever the note's status is not KnockedIn or today is not exactly the
parsed final-valuation date (in particular one day before or after it). -/
theorem conversion_gated (note : Note) (us : List Underlying) (today : DateV)
    (h : ¬ (note.current_status = "Knocked In" ∧
            parse_date note.final_valuation_date = some today)) :
    check_conversion note us today = .ok (false, .notKnockedIn) ∨
    check_conversion note us today = .ok (false, .convOnlyFinal) ∨
    check_conversion note us today = .ok (false, .invalidFinalDate) := by
  unfold check_conversion
  split
  all_goals try split
  all_goals simp only [check_conversion_phoenix, check_conversion_ben, check_conversion_fcn]
  all_goals
    by_cases hki : note.current_status = "Knocked In"
  case' pos | pos | pos =>
    rw [if_neg (not_not_intro hki)]
    cases hp : parse_date note.final_valuation_date with
    | none => exact Or.inr (Or.inr rfl)
    | some fv =>
      have hne : today ≠ fv := fun he => h ⟨hki, by rw [hp, he]⟩
      exact Or.inr (Or.inl (by simp [hne]))
  case' neg | neg | neg =>
    rw [if_pos hki]
    exact Or.inl rfl

/-- C7, witness: an Alive note one day before its final valuation date. -/
theorem conversion_gated_witness :
    check_conversion noteW2 [] 9 = .ok (false, .notKnockedIn) ∨
    check_conversion noteW2 [] 9 = .ok (false, .convOnlyFinal) ∨
    check_conversion noteW2 [] 9 = .ok (false, .invalidFinalDate) :=
  conversion_gated noteW2 [] 9 (by decide)

/-- An Alive FCN note with no underlyings, for orchestration witnesses. -/
def noteW8 : Note :=
  ⟨8, "XS-W8", some "FCN", "Alive", none, .valid 0, .valid 100, false, false, none, none⟩

/-- C8: within one refresh pass, each note is evaluated in the strict order
conversion → knock-out → knock-in, mutually exclusively: if conversion
applies (convInc = 1) the KO and KI checks are not evaluated; if KO
triggers the KI check is not evaluated; at most one of the three events is
counted for one note in one pass. -/
theorem refresh_checks_order (note : Note) (us : List Underlying) (today : DateV)
    (r : StepResult) (h : processNote note us today = .ok r) :
    (r.evaluated = [.conversion] ∨ r.evaluated = [.conversion, .knockOut] ∨
      r.evaluated = [.conversion, .knockOut, .knockIn]) ∧
    (r.convInc = 1 → r.evaluated = [.conversion]) ∧
    (r.koInc = 1 → r.evaluated = [.conversion, .knockOut]) ∧
    r.convInc + r.koInc + r.kiInc ≤ 1 := by
  unfold processNote at h
  split at h
  · exact absurd h (by simp)
  · split at h
    · cases h
      exact ⟨Or.inl rfl, fun _ => rfl, fun hk => absurd hk (by simp), by simp⟩
    · split at h
      · cases h
        exact ⟨Or.inl rfl, fun hc => absurd hc (by simp),
          fun hk => absurd hk (by simp), by simp⟩
      · split at h
        · cases h
          exact ⟨Or.inr (Or.inl rfl), fun hc => absurd hc (by simp),
            fun _ => rfl, by simp⟩
        · split at h
          · cases h
            exact ⟨Or.inr (Or.inr rfl), fun hc => absurd hc (by simp),
              fun hk => absurd hk (by simp), by simp⟩
          · cases h
            exact ⟨Or.inr (Or.inr rfl), fun hc => absurd hc (by simp),
              fun hk => absurd hk (by simp), by simp⟩

/-- C8, witness: an Alive note with nothing to trigger walks through all
three checks in order. -/
theorem refresh_checks_order_witness :
    (⟨noteW8, 0, 0, 0, [CheckKind.conversion, CheckKind.knockOut, CheckKind.knockIn]⟩
        : StepResult).evaluated = [CheckKind.conversion] ∨
    (⟨noteW8, 0, 0, 0, [CheckKind.conversion, CheckKind.knockOut, CheckKind.knockIn]⟩
        : StepResult).evaluated = [CheckKind.conversion, CheckKind.knockOut] ∨
    (⟨noteW8, 0, 0, 0, [CheckKind.conversion, CheckKind.knockOut, CheckKind.knockIn]⟩
        : StepResult).evaluated =
      [CheckKind.conversion, CheckKind.knockOut, CheckKind.knockIn] :=
  (refresh_checks_order noteW8 [] 0
    ⟨noteW8, 0, 0, 0, [CheckKind.conversion, CheckKind.knockOut, CheckKind.knockIn]⟩
    rfl).1

/-- A Knocked-In FCN note at its final valuation date 100, with its KI flag
and event date recorded. -/
def kiNoteC9 : Note :=
  ⟨9, "XS-C9", some "FCN", "Knocked In", none, .valid 0, .valid 100, false, true,
    none, some 50⟩

/-- An underlying whose last close (50) is below its strike (100). -/
def underC9 : Underlying := ⟨"T", some 100, some 100, some 110, some 80, some 50⟩

/-- A Knocked-Out FCN note with its KO flag and event date recorded. -/
def koNoteW9 : Note :=
  ⟨91, "XS-W9", some "FCN", "Knocked Out", none, .valid 0, .valid 100, true, false,
    some 10, none⟩

/-- C9, counterexample: a note whose knock-in flag and status are set is NOT
left unchanged by every subsequent refresh — on the final valuation date the
pass converts it, changing `current_status` to `Converted` and counting it
once more (in `convertedCount`). -/
theorem knocked_in_note_changes_on_refresh :
    kiNoteC9.current_status = "Knocked In" ∧ kiNoteC9.ki_event_occurred = true ∧
    processNote kiNoteC9 [underC9] 100 =
      .ok ⟨{ kiNoteC9 with current_status := "Converted" }, 0, 0, 1, [.conversion]⟩ ∧
    ("Converted" : String) ≠ kiNoteC9.current_status := by
  refine ⟨rfl, rfl, ?_, by decide⟩
  unfold processNote check_conversion
  rw [if_neg (by decide : ¬ productType kiNoteC9 = "Phoenix"),
    if_neg (by decide : ¬ productType kiNoteC9 = "BEN")]
  unfold check_conversion_fcn
  rw [if_neg (by decide : ¬ kiNoteC9.current_status ≠ "Knocked In")]
  norm_num [kiNoteC9, underC9, truthyQ, parse_date, List.filter_cons, List.filter_nil,
    worstBy, worstStep, perfStrike]

/-- C9, amended: knock-out and knock-in triggers fire at most once — for a
note whose status is already KnockedOut or KnockedIn, a refresh pass never
increments koCount or kiCount for it and never changes its KO/KI flags or
event dates; a KnockedOut note is left entirely unchanged (so an immediate
second refresh reports zero additional knock-outs); a KnockedIn note may
still transition to Converted on the final valuation date, its flags and
event dates intact. -/
theorem barrier_triggers_fire_once (note : Note) (us : List Underlying)
    (today : DateV) (r : StepResult)
    (hst : note.current_status = "Knocked Out" ∨ note.current_status = "Knocked In")
    (h : processNote note us today = .ok r) :
    r.koInc = 0 ∧ r.kiInc = 0 ∧
    r.note.ko_event_occurred = note.ko_event_occurred ∧
    r.note.ki_event_occurred = note.ki_event_occurred ∧
    r.note.ko_event_date = note.ko_event_date ∧
    r.note.ki_event_date = note.ki_event_date ∧
    (note.current_status = "Knocked Out" → r = ⟨note, 0, 0, 0, [.conversion]⟩) := by
  have hobs : ¬ inObservationStatus note.current_status = true := by
    rcases hst with h' | h' <;> simp [inObservationStatus, h']
  unfold processNote at h
  split at h
  · exact absurd h (by simp)
  · rename_i conv hcv
    split at h
    · rename_i hconv1
      cases h
      refine ⟨rfl, rfl, rfl, rfl, rfl, rfl, fun hko => ?_⟩
      have hne : note.current_status ≠ "Knocked In" := by
        rw [hko]
        decide
      have := check_conversion_of_not_knocked_in note us today hne
      rw [this] at hcv
      cases hcv
      cases hconv1
    · cases h
      exact ⟨rfl, rfl, rfl, rfl, rfl, rfl, fun _ => rfl⟩

/-- C9, amended, witness at a Knocked-Out note: nothing changes, nothing is
counted. -/
theorem barrier_triggers_fire_once_witness :
    (⟨koNoteW9, 0, 0, 0, [CheckKind.conversion]⟩ : StepResult).koInc = 0 ∧
    (⟨koNoteW9, 0, 0, 0, [CheckKind.conversion]⟩ : StepResult).kiInc = 0 :=
  ⟨(barrier_triggers_fire_once koNoteW9 [] 0 ⟨koNoteW9, 0, 0, 0, [.conversion]⟩
      (Or.inl rfl) rfl).1,
   (barrier_triggers_fire_once koNoteW9 [] 0 ⟨koNoteW9, 0, 0, 0, [.conversion]⟩
      (Or.inl rfl) rfl).2.1⟩

end StructuredNotes
